import Mathlib

/-!
Verification of the persistence and embedding layer of `rag_backend.py`
(Multimodal-RAG). The functions `load_or_initialize_stores`, `save_stores`,
`clear_vector_store`, `clear_history` and `generate_multimodal_embeddings`
are shallowly embedded: the on-disk snapshot (`vector_store/` directory with
`faiss.index`, `items.pkl`, `query_embeddings.pkl`) becomes an explicit
state record mapping each artifact to its optional content, and Python
exceptions become `Except` values. Filesystem primitives that the source
wraps in `try`/`except` take an explicit failure flag so that the
catch-and-log behaviour is visible in the model.
-/

namespace RagBackend

/-- Variant tag of a content item, from the `"type"` field of the dicts
built in `process_tables` / `process_text_chunks` / `process_images` /
`process_page_images`. -/
inductive ItemType where
  | text
  | table
  | image
  | page
  deriving DecidableEq, Repr

/-- One content item, mirroring the dicts appended to `items` in
`rag_backend.py` (`page`, `type`, optional `text`, optional `image`,
`path`, optional `raw_table`). The base64 image payload is a string, the
`raw_table` records are key/value rows. -/
structure ContentItem where
  page : Nat
  type : ItemType
  text : Option String := none
  image : Option String := none
  path : String
  raw_table : Option (List (List (String × String))) := none
  deriving DecidableEq, Repr

/-- The FAISS flat L2 index: a fixed dimension `d` and the stored vectors.
Only size and dimension are relevant to the persistence layer. -/
structure FaissIndex where
  d : Nat
  vectors : List (List Float)

/-- `faiss.IndexFlatL2(d)`: a fresh empty index of dimension `d`. -/
def IndexFlatL2 (d : Nat) : FaissIndex := { d := d, vectors := [] }

/-- `index.ntotal`: the number of stored vectors. -/
def FaissIndex.ntotal (idx : FaissIndex) : Nat := idx.vectors.length

/-- The query-embeddings cache pickled to `query_embeddings.pkl`: a dict
from query text to embedding vector, modelled as an association list. -/
def QueryCache : Type := List (String × List Float)

/-- The empty cache dict `{}`. -/
def QueryCache.empty : QueryCache := []

/-- Exceptions the embedded code can raise. `fileNotFoundError` is what
`open(..., 'rb')` raises on a missing file, `osError` stands for failures
of `shutil.rmtree` / `os.remove`, `valueError` is raised by
`generate_multimodal_embeddings` on empty input, `clientError` is
botocore's `ClientError` from `invoke_model`. -/
inductive PyError where
  | fileNotFoundError
  | osError
  | valueError
  | clientError
  deriving DecidableEq, Repr

/-- The persisted state under `vector_store/`: whether the directory
exists and, for each of the three artifact files, its content when the
file is present (`none` = file absent). -/
structure FS where
  dirExists : Bool
  faissIndex : Option FaissIndex
  itemsPkl : Option (List ContentItem)
  queryCache : Option QueryCache

/-- A filesystem state is well formed when every artifact file that is
present lives inside an existing `vector_store/` directory. -/
def FS.wf (fs : FS) : Prop :=
  (fs.faissIndex.isSome → fs.dirExists = true) ∧
  (fs.itemsPkl.isSome → fs.dirExists = true) ∧
  (fs.queryCache.isSome → fs.dirExists = true)

instance (fs : FS) : Decidable fs.wf := by
  unfold FS.wf
  infer_instance

/-- The filesystem state with no `vector_store/` directory at all. -/
def FS.empty : FS :=
  { dirExists := false, faissIndex := none, itemsPkl := none, queryCache := none }

/-- `load_or_initialize_stores()`. The source checks
`os.path.exists(vector_store/faiss.index)`; when the index file exists it
reads it and then opens `items.pkl` (raising `FileNotFoundError` when that
file is absent), otherwise it builds `faiss.IndexFlatL2(384)` and an empty
item list. Independently, `query_embeddings.pkl` is loaded when present
and initialized to `{}` otherwise. -/
def load_or_initialize_stores (fs : FS) :
    Except PyError (FaissIndex × List ContentItem × QueryCache) :=
  let embedding_vector_dimension := 384
  match fs.faissIndex with
  | some idx =>
    match fs.itemsPkl with
    | some all_items => .ok (idx, all_items, fs.queryCache.getD QueryCache.empty)
    | none => .error .fileNotFoundError
  | none =>
    .ok (IndexFlatL2 embedding_vector_dimension, [],
         fs.queryCache.getD QueryCache.empty)

/-- `save_stores(index, all_items, query_embeddings_cache)`: creates
`vector_store/` (`os.makedirs(..., exist_ok=True)`) and writes the three
artifacts, overwriting any previous content. -/
def save_stores (fs : FS) (index : FaissIndex) (all_items : List ContentItem)
    (query_embeddings_cache : QueryCache) : FS :=
  { dirExists := true
    faissIndex := some index
    itemsPkl := some all_items
    queryCache := some query_embeddings_cache }

/-- The body of `clear_vector_store` before its `except` clause: when the
`vector_store/` directory exists, `shutil.rmtree` removes it recursively
(raising `OSError` when the removal fails, signalled by `rmFail`);
otherwise nothing happens. -/
def clearVectorStoreBody (fs : FS) (rmFail : Bool) : Except PyError FS :=
  if fs.dirExists then
    if rmFail then .error .osError
    else .ok { dirExists := false, faissIndex := none, itemsPkl := none,
               queryCache := none }
  else .ok fs

/-- `clear_vector_store()`: runs the removal body and catches every
exception, logging it and returning normally with the state unchanged. -/
def clear_vector_store (fs : FS) (rmFail : Bool) : FS :=
  match clearVectorStoreBody fs rmFail with
  | .ok fs2 => fs2
  | .error _ => fs

/-- The body of `clear_history` before its `except` clause: when
`vector_store/query_embeddings.pkl` exists, `os.remove` deletes it
(raising `OSError` when the removal fails, signalled by `rmFail`);
otherwise nothing happens. -/
def clearHistoryBody (fs : FS) (rmFail : Bool) : Except PyError FS :=
  if fs.queryCache.isSome then
    if rmFail then .error .osError
    else .ok { fs with queryCache := none }
  else .ok fs

/-- `clear_history()`: runs the removal body and catches every exception,
logging it and returning normally with the state unchanged. -/
def clear_history (fs : FS) (rmFail : Bool) : FS :=
  match clearHistoryBody fs rmFail with
  | .ok fs2 => fs2
  | .error _ => fs

/-- Python truthiness of an optional string argument: `None` and the empty
string are falsy. -/
def truthyStr : Option String → Bool
  | none => false
  | some s => !s.isEmpty

/-- The request body built by `generate_multimodal_embeddings`:
`embeddingConfig.outputEmbeddingLength` plus `inputText` / `inputImage`
fields that are set only for truthy arguments. -/
structure TitanRequest where
  outputEmbeddingLength : Nat
  inputText : Option String
  inputImage : Option String
  deriving DecidableEq, Repr

/-- `generate_multimodal_embeddings(prompt, image, output_embedding_length)`.
Raises `ValueError` when both `prompt` and `image` are falsy; otherwise it
builds the request body and calls the remote model (`invoke_model`, the
black-box collaborator, passed as a function). On success it returns the
`embedding` field of the parsed response. The `except` clause catches only
botocore's `ClientError`, logging it and returning `None`; any other
exception raised inside the `try` block propagates to the caller. -/
def generate_multimodal_embeddings (prompt image : Option String)
    (output_embedding_length : Nat)
    (invoke_model : TitanRequest → Except PyError (Option (List Float))) :
    Except PyError (Option (List Float)) :=
  if !truthyStr prompt && !truthyStr image then
    .error .valueError
  else
    let body : TitanRequest :=
      { outputEmbeddingLength := output_embedding_length
        inputText := if truthyStr prompt then prompt else none
        inputImage := if truthyStr image then image else none }
    match invoke_model body with
    | .ok result => .ok result
    | .error .clientError => .ok none
    | .error e => .error e

/-- A sample item used in concrete counterexamples and witnesses. -/
def sampleItem : ContentItem :=
  { page := 0, type := .text, text := some "Revenue grew 10%",
    path := "data/text/report.pdf_text_0_0.txt" }

/-- A sample one-vector index of dimension 384. -/
def sampleIndex : FaissIndex :=
  { d := 384, vectors := [List.replicate 384 (0.5 : Float)] }

/-- A sample fully populated filesystem state. -/
def sampleFS : FS :=
  { dirExists := true, faissIndex := some sampleIndex,
    itemsPkl := some [sampleItem], queryCache := some [("revenue", [])] }

end RagBackend

namespace RagBackend

/-- C4: when no persisted artifacts exist at all (no directory, no files),
`load_or_initialize_stores` returns a freshly initialized empty index of
dimension 384, an empty item list and an empty query cache. -/
theorem load_fresh_when_no_artifacts :
    load_or_initialize_stores FS.empty =
      .ok (IndexFlatL2 384, [], QueryCache.empty) ∧
    (IndexFlatL2 384).d = 384 ∧ (IndexFlatL2 384).ntotal = 0 := by
  refine ⟨rfl, rfl, rfl⟩

/-- C5: when the index and item-list artifacts exist but the query-cache
artifact is absent, `load_or_initialize_stores` succeeds with the persisted
index and items and an empty cache: the absent cache is not treated as
corruption. -/
theorem load_tolerates_missing_cache (idx : FaissIndex)
    (items : List ContentItem) :
    load_or_initialize_stores
      { dirExists := true, faissIndex := some idx, itemsPkl := some items,
        queryCache := none } =
      .ok (idx, items, QueryCache.empty) := by
  rfl

/-- C1 counterexample: an item-list artifact present without the index
artifact is silently accepted — `load_or_initialize_stores` returns a
fresh empty index and empty item list instead of surfacing a corruption
error, refuting the claim at this concrete state. -/
theorem load_accepts_items_without_index :
    load_or_initialize_stores
      { dirExists := true, faissIndex := none, itemsPkl := some [sampleItem],
        queryCache := none } =
      .ok (IndexFlatL2 384, [], QueryCache.empty) ∧
    (some [sampleItem] : Option (List ContentItem)) ≠ none := by
  exact ⟨rfl, by simp⟩

/-- C1 amended: fresh initialization is triggered exactly when the index
artifact is absent, regardless of the item-list artifact (which is then
ignored); an error is surfaced only in the converse partial state, when
the index artifact is present but the item-list artifact is absent (the
`open` of `items.pkl` raises `FileNotFoundError`). -/
theorem load_fresh_iff_index_absent (fs : FS) :
    (fs.faissIndex = none →
       load_or_initialize_stores fs =
         .ok (IndexFlatL2 384, [], fs.queryCache.getD QueryCache.empty)) ∧
    (∀ idx, fs.faissIndex = some idx → fs.itemsPkl = none →
       load_or_initialize_stores fs = .error .fileNotFoundError) := by
  constructor
  · intro h
    simp [load_or_initialize_stores, h]
  · intro idx h1 h2
    simp [load_or_initialize_stores, h1, h2]

/-- C1 amended, witness: the amended theorem applied to the two concrete
partial states. -/
theorem load_fresh_iff_index_absent_witness :
    load_or_initialize_stores
      { dirExists := true, faissIndex := none, itemsPkl := some [sampleItem],
        queryCache := none } =
      .ok (IndexFlatL2 384, [], QueryCache.empty) ∧
    load_or_initialize_stores
      { dirExists := true, faissIndex := some sampleIndex, itemsPkl := none,
        queryCache := none } =
      .error .fileNotFoundError :=
  ⟨(load_fresh_iff_index_absent _).1 rfl,
   (load_fresh_iff_index_absent _).2 sampleIndex rfl rfl⟩

/-- C3: persistence round-trip — saving a non-empty state and loading it
back yields an index of the same size and an item list equal element-wise
to the saved one (and the same cache). -/
theorem persistence_round_trip (fs : FS) (idx : FaissIndex)
    (items : List ContentItem) (cache : QueryCache) (h : items ≠ []) :
    ∃ idx2 items2 cache2,
      load_or_initialize_stores (save_stores fs idx items cache) =
        .ok (idx2, items2, cache2) ∧
      idx2.ntotal = idx.ntotal ∧ items2 = items :=
  ⟨idx, items, cache, rfl, rfl, rfl⟩

/-- C3 witness: the round trip at a concrete one-item state. -/
theorem persistence_round_trip_witness :
    ∃ idx2 items2 cache2,
      load_or_initialize_stores
        (save_stores FS.empty sampleIndex [sampleItem] QueryCache.empty) =
        .ok (idx2, items2, cache2) ∧
      idx2.ntotal = sampleIndex.ntotal ∧ items2 = [sampleItem] :=
  persistence_round_trip FS.empty sampleIndex [sampleItem] QueryCache.empty
    (by simp)

/-- C6: `clear_vector_store` (with the removal succeeding) removes the
whole snapshot location and every artifact in it, is a no-op that raises
nothing when the location does not exist, and for any well-formed prior
state a subsequent load returns the fresh-empty triple. -/
theorem clear_all_then_load_fresh (fs : FS) (h : fs.wf) :
    (clear_vector_store fs false).dirExists = false ∧
    (clear_vector_store fs false).faissIndex = none ∧
    (clear_vector_store fs false).itemsPkl = none ∧
    (clear_vector_store fs false).queryCache = none ∧
    (fs.dirExists = false → ∀ b, clearVectorStoreBody fs b = .ok fs) ∧
    load_or_initialize_stores (clear_vector_store fs false) =
      .ok (IndexFlatL2 384, [], QueryCache.empty) := by
  obtain ⟨h1, h2, h3⟩ := h
  by_cases hd : fs.dirExists = true
  · refine ⟨?_, ?_, ?_, ?_, ?_, ?_⟩ <;>
      simp [clear_vector_store, clearVectorStoreBody, hd,
            load_or_initialize_stores, QueryCache.empty]
  · have hd' : fs.dirExists = false := by
      cases hx : fs.dirExists
      · rfl
      · exact absurd hx hd
    have hi : fs.faissIndex = none := by
      cases hx : fs.faissIndex
      · rfl
      · exact absurd (h1 (by simp [hx])) (by simp [hd'])
    have hp : fs.itemsPkl = none := by
      cases hx : fs.itemsPkl
      · rfl
      · exact absurd (h2 (by simp [hx])) (by simp [hd'])
    have hq : fs.queryCache = none := by
      cases hx : fs.queryCache
      · rfl
      · exact absurd (h3 (by simp [hx])) (by simp [hd'])
    refine ⟨?_, ?_, ?_, ?_, ?_, ?_⟩ <;>
      simp [clear_vector_store, clearVectorStoreBody, hd', hi, hp, hq,
            load_or_initialize_stores, QueryCache.empty]

/-- C6 witness: clearing the fully populated sample state and reloading
yields the fresh-empty triple. -/
theorem clear_all_then_load_fresh_witness :
    load_or_initialize_stores (clear_vector_store sampleFS false) =
      .ok (IndexFlatL2 384, [], QueryCache.empty) :=
  (clear_all_then_load_fresh sampleFS
    ⟨fun _ => rfl, fun _ => rfl, fun _ => rfl⟩).2.2.2.2.2

/-- C7: `clear_history` (with the removal succeeding) removes only the
query-cache artifact, leaves the index and item-list artifacts unchanged,
is a no-op that raises nothing when the cache artifact is absent, and a
subsequent load yields the unchanged index and items with an empty
cache. -/
theorem clear_cache_only_frame (fs : FS) :
    ((clear_history fs false).faissIndex = fs.faissIndex ∧
     (clear_history fs false).itemsPkl = fs.itemsPkl ∧
     (clear_history fs false).dirExists = fs.dirExists ∧
     (clear_history fs false).queryCache = none) ∧
    (fs.queryCache = none → ∀ b, clearHistoryBody fs b = .ok fs) ∧
    (∀ idx items, fs.faissIndex = some idx → fs.itemsPkl = some items →
       load_or_initialize_stores (clear_history fs false) =
         .ok (idx, items, QueryCache.empty)) := by
  by_cases hq : fs.queryCache.isSome = true
  · refine ⟨⟨?_, ?_, ?_, ?_⟩, ?_, ?_⟩ <;>
      simp_all [clear_history, clearHistoryBody, load_or_initialize_stores,
                QueryCache.empty]
  · have hq' : fs.queryCache = none := by
      cases hx : fs.queryCache
      · rfl
      · exact absurd (by simp [hx]) hq
    refine ⟨⟨?_, ?_, ?_, ?_⟩, ?_, ?_⟩ <;>
      simp_all [clear_history, clearHistoryBody, load_or_initialize_stores,
                QueryCache.empty]

/-- C7 witness: clearing the cache of the sample state keeps the index and
items, and reloading yields them with an empty cache. -/
theorem clear_cache_only_frame_witness :
    (clear_history sampleFS false).faissIndex = some sampleIndex ∧
    load_or_initialize_stores (clear_history sampleFS false) =
      .ok (sampleIndex, [sampleItem], QueryCache.empty) :=
  ⟨(clear_cache_only_frame sampleFS).1.1,
   (clear_cache_only_frame sampleFS).2.2 sampleIndex [sampleItem] rfl rfl⟩

/-- C8: when neither a text prompt nor an image is provided,
`generate_multimodal_embeddings` raises `ValueError` instead of returning
a vector, whatever the remote service would do. -/
theorem embeddings_reject_empty_input (len : Nat)
    (invoke : TitanRequest → Except PyError (Option (List Float))) :
    generate_multimodal_embeddings none none len invoke =
      .error .valueError := rfl

/-- C9: `save_stores` creates the snapshot location and writes all three
artifacts into it, for any prior filesystem state — in particular starting
from a fresh filesystem with no location. -/
theorem save_writes_all_artifacts (fs : FS) (idx : FaissIndex)
    (items : List ContentItem) (cache : QueryCache) :
    (save_stores fs idx items cache).dirExists = true ∧
    (save_stores fs idx items cache).faissIndex = some idx ∧
    (save_stores fs idx items cache).itemsPkl = some items ∧
    (save_stores fs idx items cache).queryCache = some cache :=
  ⟨rfl, rfl, rfl, rfl⟩

/-- C2 counterexample: when the remote call fails with `ClientError`, the
embedding operation does not fail — it returns normally with `None`
(`Except.ok none`), refuting the claim at this concrete input. -/
theorem embeddings_swallow_client_error :
    generate_multimodal_embeddings (some "What was the revenue?") none 384
      (fun _ => .error .clientError) = .ok none := rfl

/-- C2 amended: on any input with at least one truthy argument, a remote
`ClientError` is caught and logged and the operation returns `None`
normally; any other exception raised by the remote call propagates to the
caller; a vector is returned only when the remote call succeeds (so for
`ClientError` specifically, callers must test for `None` rather than catch
an exception). -/
theorem embeddings_error_behaviour (prompt image : Option String) (len : Nat)
    (r : Except PyError (Option (List Float)))
    (h : truthyStr prompt = true ∨ truthyStr image = true) :
    (r = .error .clientError →
       generate_multimodal_embeddings prompt image len (fun _ => r) =
         .ok none) ∧
    (∀ e, e ≠ PyError.clientError → r = .error e →
       generate_multimodal_embeddings prompt image len (fun _ => r) =
         .error e) ∧
    (∀ v, r = .ok v →
       generate_multimodal_embeddings prompt image len (fun _ => r) =
         .ok v) := by
  have hc : (!truthyStr prompt && !truthyStr image) = false := by
    rcases h with h | h <;> simp [h]
  refine ⟨?_, ?_, ?_⟩
  · intro hr
    simp [generate_multimodal_embeddings, hc, hr]
  · intro e he hr
    cases e <;> simp_all [generate_multimodal_embeddings, hc]
  · intro v hv
    simp [generate_multimodal_embeddings, hc, hv]

/-- C2 amended, witness: the amended theorem at a concrete text query, for
a remote `ClientError` (swallowed), a remote `OSError` (propagated) and a
succeeding remote call. -/
theorem embeddings_error_behaviour_witness :
    generate_multimodal_embeddings (some "What was the revenue?") none 384
      (fun _ => .error .clientError) = .ok none ∧
    generate_multimodal_embeddings (some "What was the revenue?") none 384
      (fun _ => .error .osError) = .error .osError ∧
    generate_multimodal_embeddings (some "What was the revenue?") none 384
      (fun _ => .ok (some [])) = .ok (some []) :=
  ⟨(embeddings_error_behaviour (some "What was the revenue?") none 384
      (.error .clientError) (Or.inl rfl)).1 rfl,
   (embeddings_error_behaviour (some "What was the revenue?") none 384
      (.error .osError) (Or.inl rfl)).2.1 .osError (by decide) rfl,
   (embeddings_error_behaviour (some "What was the revenue?") none 384
      (.ok (some [])) (Or.inl rfl)).2.2 (some []) rfl⟩

/-- C10: both clear operations catch every exception of the underlying
filesystem removal: when the removal fails (body raises `OSError`), the
outer function still returns normally with the state unchanged, so the
snapshot or cache artifact still exists and the caller observes no
exception. -/
theorem clear_ops_catch_all (fs : FS) :
    (fs.dirExists = true →
       clearVectorStoreBody fs true = .error .osError ∧
       clear_vector_store fs true = fs) ∧
    (fs.queryCache.isSome = true →
       clearHistoryBody fs true = .error .osError ∧
       clear_history fs true = fs) := by
  constructor
  · intro h
    constructor <;> simp [clearVectorStoreBody, clear_vector_store, h]
  · intro h
    constructor <;> simp [clearHistoryBody, clear_history, h]

/-- C10 witness: on the fully populated sample state with failing
removals, both clear operations return normally and leave the artifacts
in place. -/
theorem clear_ops_catch_all_witness :
    clear_vector_store sampleFS true = sampleFS ∧
    clear_history sampleFS true = sampleFS :=
  ⟨((clear_ops_catch_all sampleFS).1 rfl).2,
   ((clear_ops_catch_all sampleFS).2 rfl).2⟩

end RagBackend
